import Mathlib

/-!
Shallow embedding of `guillotina_gcloudstorage/storage.py`: the resumable
upload session (`start` / `_append` / `append` / `finish`), the delete
operations (`delete_upload`, `delete_by_prefix`, `delete_blobs`), bucket
enumeration (`iterate_bucket`) and the range reader
(`iter_data` / `read_range`), together with the backoff retry policy over
`RETRIABLE_EXCEPTIONS`.  HTTP responses are modelled as explicit data
passed in; Python integers are `Int`; raised exceptions are `Except`
errors drawn from the closed fault taxonomy.
-/

deriving instance DecidableEq for Except

namespace GCloudStorage

/-- The closed fault taxonomy of the module.  `transport` is
`GoogleCloudException`; `authTransport`/`authRefresh` are the
`google.auth` exceptions; `clientPayload`/`clientConnector`/`clientOS`
are the `aiohttp` connection-level exceptions; the remaining
constructors are the non-retriable domain faults raised by the code
(`HTTPGone`, `HTTPPreconditionFailed`, `HTTPNotFound`, `AttributeError`,
`KeyError`, `DeleteStorageException`). -/
inductive Fault where
  | transport
  | authTransport
  | authRefresh
  | clientPayload
  | clientConnector
  | clientOS
  | gone
  | precondition
  | notFound
  | attributeError
  | keyError
  | deleteStorage
deriving DecidableEq, Repr

/-- Membership in `RETRIABLE_EXCEPTIONS` (storage.py lines 94-101): the
tuple caught by every `backoff.on_exception` decorator in the module. -/
def isRetriable : Fault → Bool
  | .transport => true
  | .authTransport => true
  | .authRefresh => true
  | .clientPayload => true
  | .clientConnector => true
  | .clientOS => true
  | _ => false

/-- The `backoff.on_exception(..., max_tries = fuel)` retry loop: attempt
`f i`; on an exception that is in the retriable set, retry while attempts
remain, otherwise re-raise the exception unchanged.  Returns the final
outcome together with the number of attempts actually made. -/
def retryCount (retr : Fault → Bool) (f : Nat → Except Fault α) :
    Nat → Nat → Except Fault α × Nat
  | _, 0 => (.error .transport, 0)
  | i, fuel + 1 =>
    match f i with
    | .ok a => (.ok a, 1)
    | .error e =>
      if retr e && fuel != 0 then
        let r := retryCount retr f (i + 1) fuel
        (r.1, r.2 + 1)
      else (.error e, 1)

/-- A call that fails every attempt with the same retriable fault is
attempted exactly `max_tries` times and then the original fault is
re-raised unchanged. -/
theorem retryCount_exhaust (e : Fault) (he : isRetriable e = true)
    (f : Nat → Except Fault α) (hf : ∀ i, f i = .error e) :
    ∀ n i, retryCount isRetriable f i (n + 1) = (.error e, n + 1) := by
  intro n
  induction n with
  | zero =>
    intro i
    simp [retryCount, hf i]
  | succ m ih =>
    intro i
    have step : retryCount isRetriable f i (m + 1 + 1)
        = ((retryCount isRetriable f (i + 1) (m + 1)).1,
           (retryCount isRetriable f (i + 1) (m + 1)).2 + 1) := by
      rw [retryCount, hf i]
      simp [he]
    rw [step, ih (i + 1)]

/-- A call whose first attempt raises a non-retriable fault is not
retried: one attempt, the fault re-raised. -/
theorem retryCount_nonretriable (e : Fault) (he : isRetriable e = false)
    (f : Nat → Except Fault α) (i : Nat) (fuel : Nat)
    (hf : f i = .error e) :
    retryCount isRetriable f i (fuel + 1) = (.error e, 1) := by
  simp [retryCount, hf, he]

/-- One response of the storage service to a resumable `PUT`: its HTTP
status, and the upper bound of its `Range` header when that header is
present (the code reads `int(range_header.split("-")[-1])`). -/
structure Resp where
  status : Int
  rangeUpper : Option Int
deriving DecidableEq, Repr

/-- Status handling of `GCloudFileManager._append` (storage.py lines
303-337): statuses 200, 201 and 308 are returned to the caller; 410
raises `HTTPGone`; anything else raises `GoogleCloudException`. -/
def _append (resp : Resp) : Except Fault Resp :=
  if resp.status = 200 ∨ resp.status = 201 ∨ resp.status = 308 then
    .ok resp
  else if resp.status = 410 then
    .error .gone
  else
    .error .transport

/-- `_append` as decorated: `backoff.constant` over `RETRIABLE_EXCEPTIONS`
with `max_tries=10`; `resps i` is the response to the i-th attempt. -/
def _append_retried (resps : Nat → Resp) : Except Fault Resp × Nat :=
  retryCount isRetriable (fun i => _append (resps i)) 0 10

/-- The loop body of `GCloudFileManager.append` (storage.py lines
339-363).  Each list element is one chunk: its byte length, paired with
the outcome of the retried `_append` call for it.  After a successful
call the loop adds the chunk length to `count` and `offset`; on a 308 it
checks the echoed `Range` upper bound against `offset - 1` (the already
advanced offset) and raises `HTTPPreconditionFailed` on mismatch; on 200
or 201 it breaks; the accumulated `count` is returned. -/
def appendLoop : List (Nat × Except Fault Resp) → Int → Int → Except Fault Int
  | [], _, count => .ok count
  | (chunk, r) :: rest, offset, count =>
    match r with
    | .error e => .error e
    | .ok resp =>
      let count' := count + (chunk : Int)
      let offset' := offset + (chunk : Int)
      if resp.status = 308 then
        match resp.rangeUpper with
        | none => .error .keyError
        | some ub =>
          if offset' - 1 ≠ ub then .error .precondition
          else appendLoop rest offset' count'
      else if resp.status = 200 ∨ resp.status = 201 then .ok count'
      else appendLoop rest offset' count'

/-- `GCloudFileManager.append`: drive the loop from the caller's offset
with `count = 0`; returns the number of bytes sent, or the first fault
raised.  `append` itself carries no backoff decorator: only the inner
`_append` is wrapped by the retry policy. -/
def append (calls : List (Nat × Except Fault Resp)) (offset : Int) :
    Except Fault Int :=
  appendLoop calls offset 0

/-- Modelled from the spec: the upload session state seen by the caller.
The confirmed byte offset (`current_upload` in the data manager) lives in
the guillotina core data manager, which is not under src/; per the spec
it is advanced by the byte count returned by a successful `append` and
left unchanged when `append` raises. -/
structure Session where
  currentOffset : Int
deriving DecidableEq, Repr

/-- Modelled from the spec: apply one `append` outcome to the session:
a successful call advances `currentOffset` by the returned count, a
raised fault leaves it unchanged. -/
def applyAppend (s : Session) (r : Except Fault Int) : Session :=
  match r with
  | .ok count => ⟨s.currentOffset + count⟩
  | .error _ => s

/-- One caller-level `append` call against the session's current offset,
followed by the state update. -/
def runAppend (s : Session) (calls : List (Nat × Except Fault Resp)) :
    Session :=
  applyAppend s (append calls s.currentOffset)

/-- The trace of `currentOffset` values over a sequence of `append`
calls on one session. -/
def sessionTrace (s : Session) :
    List (List (Nat × Except Fault Resp)) → List Int
  | [] => [s.currentOffset]
  | c :: cs => s.currentOffset :: sessionTrace (runAppend s c) cs

/-- The count returned by a successful `appendLoop` run is at least the
count it started from: the loop only ever adds chunk lengths. -/
theorem appendLoop_le (calls : List (Nat × Except Fault Resp)) :
    ∀ offset count res, appendLoop calls offset count = .ok res →
      count ≤ res := by
  induction calls with
  | nil =>
    intro o c r h
    simp [appendLoop] at h
    omega
  | cons p rest ih =>
    intro o c r h
    obtain ⟨chunk, rr⟩ := p
    match rr with
    | .error e => simp [appendLoop] at h
    | .ok resp =>
      simp only [appendLoop] at h
      split at h
      · split at h
        · exact absurd h (by simp)
        · split at h
          · exact absurd h (by simp)
          · have := ih _ _ _ h
            omega
      · split at h
        · simp only [Except.ok.injEq] at h
          omega
        · have := ih _ _ _ h
          omega

/-- A successful `append` returns a nonnegative byte count. -/
theorem append_nonneg (calls : List (Nat × Except Fault Resp))
    (offset : Int) (res : Int) (h : append calls offset = .ok res) :
    0 ≤ res :=
  appendLoop_le calls offset 0 res h

/-- One `append` call never decreases the session offset. -/
theorem runAppend_mono (s : Session)
    (calls : List (Nat × Except Fault Resp)) :
    s.currentOffset ≤ (runAppend s calls).currentOffset := by
  unfold runAppend applyAppend
  split
  · next count heq =>
    have := append_nonneg calls s.currentOffset count heq
    simp
    omega
  · exact le_refl _

/-- One response of the storage service to the initiate-upload `POST`:
its HTTP status and its `Location` header, when present. -/
structure StartResp where
  status : Int
  location : Option String
deriving DecidableEq, Repr

/-- The remote part of `GCloudFileManager.start` (storage.py lines
197-241): a non-200 status raises `GoogleCloudException`; on 200 the
`Location` header is read (`KeyError` if absent) and becomes the
resumable URI. -/
def start_once (resp : StartResp) : Except Fault String :=
  if resp.status ≠ 200 then .error .transport
  else
    match resp.location with
    | some loc => .ok loc
    | none => .error .keyError

/-- `start` as decorated: `backoff.expo` over `RETRIABLE_EXCEPTIONS`
with `max_tries=10`; `resps i` is the response to the i-th attempt. -/
def start_retried (resps : Nat → StartResp) : Except Fault String × Nat :=
  retryCount isRetriable (fun i => start_once (resps i)) 0 10

/-- One response of the storage service to an object `DELETE`: its HTTP
status and the `reason` fields of `data["error"]["errors"]` from its
JSON body (empty list when the body carries no error list). -/
structure DeleteResp where
  status : Int
  errorReasons : List String
deriving DecidableEq, Repr

/-- `GCloudFileManager.delete_upload` (storage.py lines 266-298) for a
given uri and response.  Statuses 200, 204 and 404 return silently.
Otherwise: a 404 branch only logs (dead code: 404 is already accepted
above); a 403 whose JSON body lists at least one error returns early
when the first reason is `retentionPolicyNotMet` and otherwise falls off
the end of the function without raising; every remaining status raises
`GoogleCloudException`.  A `None` uri raises `AttributeError`. -/
def delete_upload (uri : Option String) (resp : DeleteResp) :
    Except Fault Unit :=
  match uri with
  | none => .error .attributeError
  | some _ =>
    if resp.status = 200 ∨ resp.status = 204 ∨ resp.status = 404 then
      .ok ()
    else if resp.status = 404 then
      .ok ()
    else if resp.status = 403 ∧ resp.errorReasons ≠ [] then
      match resp.errorReasons.head? with
      | some r =>
        if r = "retentionPolicyNotMet" then .ok () else .ok ()
      | none => .ok ()
    else
      .error .transport

/-- The data-manager fields of the upload session that `finish`
touches: the permanent object key `uri` and the in-flight temporary
object name `upload_file_id`. -/
structure Dm where
  uri : Option String
  upload_file_id : Option String
deriving DecidableEq, Repr

/-- `GCloudFileManager.finish` (storage.py lines 365-376).  `fieldUri`
is the uri of the stored file object in the field, `none` when no
uploaded file exists (`_is_uploaded_file` is false); `clean` is the
`should_clean` cleanup predicate; `resp` is the service's answer to the
best-effort `delete_upload` of the old uri.  A `GoogleCloudException`
from that delete is caught and logged; then the data manager is updated
with `uri = upload_file_id` and `upload_file_id = None`.  The returned
list holds the keys whose deletion was attempted. -/
def finish (fieldUri : Option String) (clean : Bool) (resp : DeleteResp)
    (dm : Dm) : Except Fault (Dm × List String) :=
  let promoted : Dm := { uri := dm.upload_file_id, upload_file_id := none }
  match fieldUri with
  | some u =>
    if clean then
      match delete_upload (some u) resp with
      | .ok _ => .ok (promoted, [u])
      | .error .transport => .ok (promoted, [u])
      | .error e => .error e
    else .ok (promoted, [])
  | none => .ok (promoted, [])

/-- The classification loop of `GCloudBlobStore.delete_blobs`
(storage.py lines 705-730): each key is paired with the status code of
its entry in the batch response; `200 <= status_code <= 300` goes to the
success list, everything else to the failure list, in input order. -/
def partitionByStatus : List (String × Int) → List String × List String
  | [] => ([], [])
  | (key, s) :: rest =>
    let r := partitionByStatus rest
    if 200 ≤ s ∧ s ≤ 300 then (key :: r.1, r.2) else (r.1, key :: r.2)

/-- `GCloudBlobStore.delete_blobs`: one batched delete request whose
i-th per-item status is `statuses[i]`; returns the success and failure
key lists. -/
def delete_blobs (keys : List String) (statuses : List Int) :
    List String × List String :=
  partitionByStatus (keys.zip statuses)

/-- The partition the spec describes, for comparison: a per-item status
is a success exactly when it is 2xx (`200 ≤ s < 300`). -/
def delete_blobs_spec (keys : List String) (statuses : List Int) :
    List String × List String :=
  (((keys.zip statuses).filter fun p => 200 ≤ p.2 && p.2 < 300).map (·.1),
   ((keys.zip statuses).filter fun p => !(200 ≤ p.2 && p.2 < 300)).map (·.1))

/-- Python's `"::" in s`: the key contains two consecutive colons. -/
def hasMarkerChars : List Char → Bool
  | ':' :: ':' :: _ => true
  | _ :: rest => hasMarkerChars rest
  | [] => false

/-- Whether a uri or blob name contains the `::` marker. -/
def hasMarker (s : String) : Bool := hasMarkerChars s.data

/-- `GCloudFileManager.delete_by_prefix` (storage.py lines 244-264).
`uri` is the stored file's uri (`GCloudFileManager.delete` passes
`file.uri`); `blobs` are the names the service lists under
`uri.split("::")[0]`; `statuses` are the per-item statuses of the batch
delete.  A falsy uri or one without `::` raises
`AttributeError("No valid uri")`; otherwise only listed names that
themselves contain `::` become candidate keys; no candidates returns
`False`; a failed deletion raises `GoogleCloudException`.  The second
component is the list of keys whose deletion was requested. -/
def delete_by_prefix (uri : Option String) (blobs : List String)
    (statuses : List Int) : Except Fault Bool × List String :=
  match uri with
  | none => (.error .attributeError, [])
  | some u =>
    if u ≠ "" ∧ hasMarker u = true then
      let candidate_keys := blobs.filter hasMarker
      if candidate_keys.isEmpty then (.ok false, [])
      else
        let r := delete_blobs candidate_keys statuses
        if r.2.isEmpty then (.ok true, candidate_keys)
        else (.error .transport, candidate_keys)
    else (.error .attributeError, [])

/-- One page of a bucket listing: the `items` array (absent when the
JSON has no `items` key) and the optional `nextPageToken`. -/
structure Page where
  items : Option (List String)
  nextPageToken : Option String
deriving DecidableEq, Repr

/-- The `while page_token is not None` loop of
`GCloudBlobStore.iterate_bucket` (storage.py lines 627-635), fetching
from the server's remaining pages: read `items` with default `[]`,
stop on an empty page, otherwise yield the items and follow the
page's own `nextPageToken`. -/
def followPages : List Page → List String
  | [] => []
  | p :: rest =>
    let its := p.items.getD []
    if its.isEmpty then []
    else
      its ++
        match p.nextPageToken with
        | none => []
        | some _ => followPages rest

/-- `GCloudBlobStore.iterate_bucket` (storage.py lines 620-635) over the
finite sequence of pages the server serves in order: the first page is
fetched unconditionally and the generator returns at once when it has no
`items` key; its items are yielded and its `nextPageToken`, when
present, starts the follow loop. -/
def iterate_bucket : List Page → List String
  | [] => []
  | p :: rest =>
    match p.items with
    | none => []
    | some its =>
      its ++
        match p.nextPageToken with
        | none => []
        | some _ => followPages rest

/-- Pages reachable by the follow loop are well formed: each has a
nonempty item list, and carries a `nextPageToken` exactly when further
pages follow. -/
def goodFollow : List Page → Bool
  | [] => true
  | p :: rest =>
    (!(p.items.getD []).isEmpty &&
        (p.nextPageToken.isSome == !rest.isEmpty)) &&
      goodFollow rest

/-- A well-formed served page sequence: nonempty, the first page has an
`items` field, each page carries a `nextPageToken` exactly when another
page follows, and the pages the follow loop fetches satisfy
`goodFollow`. -/
def goodPages : List Page → Bool
  | [] => false
  | p :: rest =>
    (p.items.isSome && (p.nextPageToken.isSome == !rest.isEmpty)) &&
      goodFollow rest

/-- An HTTP request as issued by the range reader: its request headers
and query parameters. -/
structure HttpRequest where
  headers : List (String × String)
  params : List (String × String)
deriving DecidableEq, Repr

/-- `GCloudFileManager.get_headers`: a bearer `AUTHORIZATION` header
when an access token is available. -/
def get_headers (token : Option String) : List (String × String) :=
  match token with
  | some t => [("AUTHORIZATION", "Bearer " ++ t)]
  | none => []

/-- The GET request built by `GCloudFileManager.iter_data` (storage.py
lines 144-183).  The function accepts a `headers` argument but never
uses it: the request it issues carries only `get_headers()` and
`alt=media`. -/
def iterDataRequest (token : Option String)
    (headers : Option (List (String × String))) : HttpRequest :=
  { headers := get_headers token, params := [("alt", "media")] }

/-- First `Range` request header, if any. -/
def findRangeHeader (hs : List (String × String)) : Option String :=
  (hs.find? fun p => p.1 = "Range").map (·.2)

/-- Strip an expected prefix from a character list. -/
def dropPrefixChars : List Char → List Char → Option (List Char)
  | [], cs => some cs
  | p :: ps, c :: cs => if c = p then dropPrefixChars ps cs else none
  | _ :: _, [] => none

/-- Split a character list at its first dash. -/
def splitDash : List Char → List Char × List Char
  | [] => ([], [])
  | c :: cs =>
    if c = '-' then ([], cs)
    else
      let r := splitDash cs
      (c :: r.1, r.2)

/-- Read a nonempty all-digit character list as a natural number. -/
def charsToNatAux : List Char → Nat → Option Nat
  | [], acc => some acc
  | c :: cs, acc =>
    if c.isDigit then charsToNatAux cs (acc * 10 + (c.toNat - 48))
    else none

/-- Read a nonempty all-digit character list as a natural number. -/
def charsToNat : List Char → Option Nat
  | [] => none
  | cs => charsToNatAux cs 0

/-- Parse a `bytes={a}-{b}` range header value. -/
def parseRange (s : String) : Option (Nat × Nat) :=
  match dropPrefixChars "bytes=".data s.data with
  | none => none
  | some rest =>
    let ab := splitDash rest
    match charsToNat ab.1, charsToNat ab.2 with
    | some x, some y => some (x, y)
    | _, _ => none

/-- Modelled from the spec: the storage service's behaviour on an
object-media GET, which is not code under src/.  With a well-formed
`Range: bytes=a-b` request header it answers 206 with bytes `a..b`
inclusive; otherwise it answers 200 with the whole object. -/
def serveObject (body : List Nat) (req : HttpRequest) : Int × List Nat :=
  match findRangeHeader req.headers with
  | some v =>
    match parseRange v with
    | some (a, b) => (206, (body.drop a).take (b + 1 - a))
    | none => (200, body)
  | none => (200, body)

/-- `GCloudFileManager.iter_data` against a server: build the request
(dropping the `headers` argument, as the code does), translate the
status — 200/206 stream the body in reads of `1024 * 1024` bytes, 404
and 401 raise `HTTPNotFound`, anything else raises
`GoogleCloudException`. -/
def iter_data (token : Option String)
    (headers : Option (List (String × String)))
    (server : HttpRequest → Int × List Nat) :
    Except Fault (List (List Nat)) :=
  let req := iterDataRequest token headers
  let r := server req
  if r.1 = 200 ∨ r.1 = 206 then .ok (List.toChunks 1048576 r.2)
  else if r.1 = 404 then .error .notFound
  else if r.1 = 401 then .error .notFound
  else .error .transport

/-- `GCloudFileManager.read_range` (storage.py lines 188-195): delegate
to `iter_data` with a `Range: bytes={start}-{end - 1}` header (the
Python parameter `end` is `stop` here). -/
def read_range (token : Option String)
    (server : HttpRequest → Int × List Nat) (start stop : Int) :
    Except Fault (List (List Nat)) :=
  iter_data token
    (some [("Range", "bytes=" ++ toString start ++ "-" ++ toString (stop - 1))])
    server

/-- The byte sub-range `[start, stop)` of a stored object, as the spec
describes the result of `read_range`. -/
def byteRange (body : List Nat) (start stop : Int) : List Nat :=
  ((body.drop start.toNat).take (stop - start).toNat)

/-- A concrete 20-byte stored object. -/
def body20 : List Nat := List.range 20

/-- C1: an `append` call that receives a 308 response whose `Range`
upper bound differs from `offset + chunkLen - 1` raises
`HTTPPreconditionFailed` at once, regardless of any further chunks; that
fault is outside `RETRIABLE_EXCEPTIONS` (and `append` carries no backoff
decorator), and the session's `currentOffset` is not advanced. -/
theorem append_range_mismatch_precondition (offset : Int) (chunk : Nat)
    (ub : Int) (rest : List (Nat × Except Fault Resp))
    (h : ub ≠ offset + (chunk : Int) - 1) :
    append ((chunk, .ok ⟨308, some ub⟩) :: rest) offset
      = .error .precondition ∧
    isRetriable .precondition = false ∧
    runAppend ⟨offset⟩ ((chunk, .ok ⟨308, some ub⟩) :: rest) = ⟨offset⟩ := by
  have hne : offset + (chunk : Int) - 1 ≠ ub := fun he => h he.symm
  have hmain : append ((chunk, .ok ⟨308, some ub⟩) :: rest) offset
      = .error .precondition := by
    simp [append, appendLoop, hne]
  refine ⟨hmain, rfl, ?_⟩
  unfold runAppend
  rw [hmain]
  rfl

/-- Witness for C1 at offset 0, a 1-byte chunk and an echoed upper
bound of 5 (the matching bound would be 0). -/
theorem append_range_mismatch_precondition_witness :
    append [(1, .ok ⟨308, some 5⟩)] 0 = .error .precondition ∧
    runAppend ⟨0⟩ [(1, .ok ⟨308, some 5⟩)] = ⟨0⟩ :=
  ⟨(append_range_mismatch_precondition 0 1 5 [] (by decide)).1,
   (append_range_mismatch_precondition 0 1 5 [] (by decide)).2.2⟩

/-- C2: a `PUT` to the resumable URI answered with status 410 raises
`HTTPGone` from `_append`; `HTTPGone` is outside `RETRIABLE_EXCEPTIONS`,
so the backoff wrapper makes exactly one attempt against the URI and
re-raises, and the `append` loop propagates the fault to the caller. -/
theorem append_gone_terminal (resps : Nat → Resp)
    (h : (resps 0).status = 410) (chunk : Nat)
    (rest : List (Nat × Except Fault Resp)) (offset : Int) :
    _append_retried resps = (.error .gone, 1) ∧
    isRetriable .gone = false ∧
    append ((chunk, (_append_retried resps).1) :: rest) offset
      = .error .gone := by
  have h410 : _append (resps 0) = .error .gone := by
    simp [_append, h]
  have hret : _append_retried resps = (.error .gone, 1) := by
    unfold _append_retried
    exact retryCount_nonretriable .gone rfl _ 0 9 h410
  refine ⟨hret, rfl, ?_⟩
  rw [hret]
  simp [append, appendLoop]

/-- Witness for C2: a service that always answers 410. -/
theorem append_gone_terminal_witness :
    _append_retried (fun _ => ⟨410, none⟩) = (.error .gone, 1) ∧
    append [(1, (_append_retried (fun _ => ⟨410, none⟩)).1)] 0
      = .error .gone :=
  ⟨(append_gone_terminal (fun _ => ⟨410, none⟩) rfl 1 [] 0).1,
   (append_gone_terminal (fun _ => ⟨410, none⟩) rfl 1 [] 0).2.2⟩

/-- C3: over any sequence of `append` calls on one session the trace of
`currentOffset` values is monotonically non-decreasing: each successful
call advances the offset by its nonnegative returned byte count and a
failed call leaves it unchanged. -/
theorem session_offset_monotone (s : Session)
    (callSeq : List (List (Nat × Except Fault Resp))) :
    List.Chain' (· ≤ ·) (sessionTrace s callSeq) := by
  induction callSeq generalizing s with
  | nil => simp [sessionTrace]
  | cons c cs ih =>
    rw [sessionTrace]
    apply List.chain'_cons'.mpr
    refine ⟨?_, ih (runAppend s c)⟩
    intro y hy
    have hhead : (sessionTrace (runAppend s c) cs).head?
        = some (runAppend s c).currentOffset := by
      cases cs <;> rfl
    rw [hhead] at hy
    simp only [Option.mem_def, Option.some.injEq] at hy
    rw [← hy]
    exact runAppend_mono s c

/-- A service that answers every initiate-upload attempt with 500. -/
def alwaysFiveHundred : Nat → StartResp := fun _ => ⟨500, none⟩

/-- C4 counterexample: an initiate-upload call that always fails with a
retriable fault is attempted 10 times (the decorator on `start` says
`max_tries=10`), not the 5 the claim states. -/
theorem start_retry_not_five_attempts :
    start_retried alwaysFiveHundred = (.error .transport, 10) ∧
    (start_retried alwaysFiveHundred).2 ≠ 5 := by
  exact ⟨by decide, by decide⟩

/-- C4 (amended): a `start` whose initiate-upload request always fails
with a non-200 response is attempted exactly 10 outer attempts, after
which the original `GoogleCloudException` fault kind is raised
unchanged. -/
theorem start_retry_exhausts_ten_attempts (resps : Nat → StartResp)
    (h : ∀ i, (resps i).status ≠ 200) :
    start_retried resps = (.error .transport, 10) := by
  unfold start_retried
  have hf : ∀ i, start_once (resps i) = .error .transport := by
    intro i
    simp [start_once, h i]
  exact retryCount_exhaust .transport rfl _ hf 9 0

/-- Witness for the amended C4: a service that always answers 500. -/
theorem start_retry_exhausts_ten_attempts_witness :
    start_retried alwaysFiveHundred = (.error .transport, 10) :=
  start_retry_exhausts_ten_attempts alwaysFiveHundred
    (by intro i; show (500 : Int) ≠ 200; decide)

/-- C5: `finish` always succeeds, updating the data manager with
`uri = upload_file_id` and `upload_file_id = None`, and attempts to
delete exactly the field's previously stored uri when one exists and the
cleanup predicate allows it (a `GoogleCloudException` from that delete
is swallowed); in particular a second `finish` on an already-finished
session with cleanup enabled attempts to delete the old promoted uri,
not the value being promoted. -/
theorem finish_promotes_upload_id :
    (∀ (fieldUri : Option String) (clean : Bool) (resp : DeleteResp)
        (dm : Dm),
      finish fieldUri clean resp dm =
        .ok ({ uri := dm.upload_file_id, upload_file_id := none },
             if clean then fieldUri.toList else [])) ∧
    finish (some "oldkey") true ⟨500, []⟩ ⟨some "oldkey", none⟩ =
      .ok ({ uri := none, upload_file_id := none }, ["oldkey"]) := by
  have hdel : ∀ (u : String) (resp : DeleteResp),
      delete_upload (some u) resp = .ok () ∨
        delete_upload (some u) resp = .error .transport := by
    intro u resp
    simp only [delete_upload]
    split_ifs with h1 h2 h3
    · left; rfl
    · left; rfl
    · left
      cases resp.errorReasons.head? with
      | none => rfl
      | some r => by_cases hr : r = "retentionPolicyNotMet" <;> simp [hr]
    · right; rfl
  constructor
  · intro fieldUri clean resp dm
    rcases fieldUri with _ | u
    · simp [finish]
    · rcases hc : clean with _ | _
      · simp [finish]
      · rcases hdel u resp with h | h <;> simp [finish, h, Option.toList]
  · decide

/-- C6: `read_range(0, 10)` builds a `Range: bytes=0-9` header and hands
it to `iter_data`, but `iter_data` drops its `headers` argument — the
GET it issues carries only the bearer header — so against a server that
does honour `Range` the call returns the whole 20-byte object instead of
the sub-range `[0, 10)`. -/
theorem read_range_ignores_range_header :
    (iterDataRequest (some "tok")
        (some [("Range", "bytes=0-9")])).headers =
      [("AUTHORIZATION", "Bearer tok")] ∧
    serveObject body20 ⟨[("Range", "bytes=0-9")], []⟩ =
      (206, byteRange body20 0 10) ∧
    read_range (some "tok") (serveObject body20) 0 10 = .ok [body20] ∧
    List.flatten [body20] ≠ byteRange body20 0 10 :=
  ⟨by decide, by decide, by decide, by decide⟩

/-- C7 counterexample: a 403 whose first listed error reason is not
`retentionPolicyNotMet` falls through `delete_upload` without raising,
where the claim requires a transport fault. -/
theorem delete_upload_403_forbidden_no_raise :
    delete_upload (some "k") ⟨403, ["forbidden"]⟩ = .ok () := by decide

/-- C7 (amended): `delete_upload` returns silently on statuses 200, 204
and 404 and on any 403 whose body lists at least one error — whatever
the first reason is, `retentionPolicyNotMet` included — and raises
`GoogleCloudException` on every other status (a 403 without listed
errors included). -/
theorem delete_upload_status_classification (u : String)
    (resp : DeleteResp) :
    delete_upload (some u) resp =
      if resp.status = 200 ∨ resp.status = 204 ∨ resp.status = 404 ∨
          (resp.status = 403 ∧ resp.errorReasons ≠ []) then .ok ()
      else .error .transport := by
  rcases resp with ⟨st, ers⟩
  simp only [delete_upload]
  by_cases h1 : st = 200 ∨ st = 204 ∨ st = 404
  · have h2 : st = 200 ∨ st = 204 ∨ st = 404 ∨ (st = 403 ∧ ers ≠ []) := by
      tauto
    simp [h1, h2]
  · have h404 : ¬st = 404 := fun hc => h1 (Or.inr (Or.inr hc))
    by_cases h3 : st = 403 ∧ ers ≠ []
    · have h2 : st = 200 ∨ st = 204 ∨ st = 404 ∨ (st = 403 ∧ ers ≠ []) :=
        Or.inr (Or.inr (Or.inr h3))
      rw [if_neg h1, if_neg h404, if_pos h3, if_pos h2]
      cases ers with
      | nil => exact absurd rfl h3.2
      | cons r rs =>
        show (if r = "retentionPolicyNotMet" then Except.ok ()
          else Except.ok ()) = Except.ok ()
        by_cases hr : r = "retentionPolicyNotMet" <;> simp [hr]
    · have h2 : ¬(st = 200 ∨ st = 204 ∨ st = 404 ∨ (st = 403 ∧ ers ≠ [])) := by
        tauto
      rw [if_neg h1, if_neg h404, if_neg h3, if_neg h2]

/-- C8 counterexample: `delete_blobs` classifies a per-item status of
exactly 300 as a success (`200 <= status_code <= 300`), while the claim
says only 2xx statuses are successes. -/
theorem delete_blobs_counts_300_as_success :
    delete_blobs ["a"] [300] = (["a"], []) ∧
    delete_blobs_spec ["a"] [300] = ([], ["a"]) := by
  exact ⟨by decide, by decide⟩

/-- The classification loop of `delete_blobs` partitions the zipped
key/status pairs by `200 ≤ s ≤ 300`, keeping input order. -/
theorem partitionByStatus_eq_filter (l : List (String × Int)) :
    partitionByStatus l =
      ((l.filter fun p => decide (200 ≤ p.2 ∧ p.2 ≤ 300)).map (·.1),
       (l.filter fun p => !decide (200 ≤ p.2 ∧ p.2 ≤ 300)).map (·.1)) := by
  induction l with
  | nil => rfl
  | cons p rest ih =>
    obtain ⟨k, s⟩ := p
    rw [partitionByStatus, ih]
    by_cases h : 200 ≤ s ∧ s ≤ 300
    · have hd : (decide (200 ≤ ((k, s) : String × Int).2 ∧
          ((k, s) : String × Int).2 ≤ 300)) = true := decide_eq_true h
      rw [if_pos h, List.filter_cons, List.filter_cons, hd]
      simp
    · have hd : (decide (200 ≤ ((k, s) : String × Int).2 ∧
          ((k, s) : String × Int).2 ≤ 300)) = false := decide_eq_false h
      rw [if_neg h, List.filter_cons, List.filter_cons, hd]
      simp

/-- C8 (amended): `delete_blobs` issues one batched request and
partitions the keys by per-item status with `200 ≤ status ≤ 300`
(inclusive of 300) as success, never raising; in particular keys
`[a,b,c]` under statuses `[200,404,200]` give success `[a,c]`,
failure `[b]`. -/
theorem delete_blobs_partition (keys : List String)
    (statuses : List Int) :
    delete_blobs keys statuses =
      (((keys.zip statuses).filter
          fun p => decide (200 ≤ p.2 ∧ p.2 ≤ 300)).map (·.1),
       ((keys.zip statuses).filter
          fun p => !decide (200 ≤ p.2 ∧ p.2 ≤ 300)).map (·.1)) ∧
    delete_blobs ["a", "b", "c"] [200, 404, 200] = (["a", "c"], ["b"]) :=
  ⟨partitionByStatus_eq_filter _, by decide⟩

/-- C9 counterexample: three served pages of which the first two carry
`nextPageToken` and the last does not, with an empty middle page:
`iterate_bucket` stops at the empty page and never yields the last
page's item, so not every item of every page is yielded. -/
theorem iterate_bucket_drops_items_after_empty_page :
    iterate_bucket
        [⟨some ["x"], some "t1"⟩, ⟨some [], some "t2"⟩,
         ⟨some ["y"], none⟩] = ["x"] ∧
    (([⟨some ["x"], some "t1"⟩, ⟨some [], some "t2"⟩,
       ⟨some ["y"], none⟩] : List Page).map
        fun p => p.items.getD []).flatten = ["x", "y"] := by
  exact ⟨by decide, by decide⟩

/-- The follow loop yields exactly the concatenation of the items of a
well-formed page chain. -/
theorem followPages_good (l : List Page) (h : goodFollow l = true) :
    followPages l = (l.map fun p => p.items.getD []).flatten := by
  induction l with
  | nil => rfl
  | cons p rest ih =>
    rw [goodFollow, Bool.and_eq_true, Bool.and_eq_true] at h
    obtain ⟨⟨hne, htok⟩, hrest⟩ := h
    rw [followPages]
    rw [Bool.not_eq_true'] at hne
    simp only [hne, Bool.false_eq_true, if_false]
    cases htok2 : p.nextPageToken with
    | none =>
      rw [htok2] at htok
      have hrnil : rest = [] := by
        cases rest with
        | nil => rfl
        | cons q qs => simp at htok
      subst hrnil
      simp
    | some t =>
      rw [htok2] at htok
      cases rest with
      | nil => simp at htok
      | cons q qs =>
        show p.items.getD [] ++ followPages (q :: qs) = _
        rw [ih hrest]
        simp

/-- C9 (amended): over any finite well-formed sequence of served pages
— the first page carries an `items` field, every page fetched by the
follow loop has a nonempty item list, and a page carries `nextPageToken`
exactly when another page follows — `iterate_bucket` yields every item
of every page exactly once and terminates. -/
theorem iterate_bucket_yields_all (pages : List Page)
    (h : goodPages pages = true) :
    iterate_bucket pages = (pages.map fun p => p.items.getD []).flatten := by
  cases pages with
  | nil => exact absurd h (by simp [goodPages])
  | cons p rest =>
    rw [goodPages, Bool.and_eq_true, Bool.and_eq_true] at h
    obtain ⟨⟨hsome, htok⟩, hrest⟩ := h
    obtain ⟨its, hits⟩ := Option.isSome_iff_exists.mp hsome
    rw [iterate_bucket, hits]
    cases htok2 : p.nextPageToken with
    | none =>
      rw [htok2] at htok
      have hrnil : rest = [] := by
        cases rest with
        | nil => rfl
        | cons q qs => simp at htok
      subst hrnil
      simp [hits]
    | some t =>
      rw [htok2] at htok
      cases rest with
      | nil => simp at htok
      | cons q qs =>
        show its ++ followPages (q :: qs) = _
        rw [followPages_good _ hrest]
        simp [hits]

/-- Witness for the amended C9: three pages, the first two with tokens
and nonempty items, the last without a token. -/
theorem iterate_bucket_yields_all_witness :
    iterate_bucket
        [⟨some ["a1", "a2"], some "t1"⟩, ⟨some ["b1"], some "t2"⟩,
         ⟨some ["c1"], none⟩] = ["a1", "a2", "b1", "c1"] :=
  (iterate_bucket_yields_all
      [⟨some ["a1", "a2"], some "t1"⟩, ⟨some ["b1"], some "t2"⟩,
       ⟨some ["c1"], none⟩] (by decide)).trans (by decide)

/-- C10: `delete` goes through `delete_by_prefix` on the stored file's
uri: a `None`, empty, or marker-free uri raises
`AttributeError("No valid uri")` with no deletion issued, and in every
case each key whose deletion is requested itself contains the `::`
marker. -/
theorem delete_by_prefix_requires_marker (uri : Option String)
    (blobs : List String) (statuses : List Int) :
    (uri = none →
      delete_by_prefix uri blobs statuses = (.error .attributeError, [])) ∧
    (∀ u, uri = some u → (u = "" ∨ hasMarker u = false) →
      delete_by_prefix uri blobs statuses = (.error .attributeError, [])) ∧
    (∀ k, k ∈ ( delete_by_prefix uri blobs statuses).2 →
      hasMarker k = true) := by
  refine ⟨?_, ?_, ?_⟩
  · rintro rfl; rfl
  · rintro u rfl hu
    have hcond : ¬(u ≠ "" ∧ hasMarker u = true) := by
      rcases hu with h | h
      · exact fun hc => hc.1 h
      · exact fun hc => by rw [h] at hc; exact absurd hc.2 (by simp)
    simp [ delete_by_prefix, hcond]
  · intro k hk
    rcases uri with _ | u
    · simp [ delete_by_prefix] at hk
    · simp only [ delete_by_prefix] at hk
      split_ifs at hk
      · exact absurd hk (List.not_mem_nil k)
      · exact (List.mem_filter.mp hk).2
      · exact (List.mem_filter.mp hk).2
      · exact absurd hk (List.not_mem_nil k)

/-- Witness for C10: a uri without the `::` marker raises, issuing no
deletion. -/
theorem delete_by_prefix_requires_marker_witness :
    delete_by_prefix (some "abc") ["x::y"] [] =
      (.error .attributeError, []) :=
  (delete_by_prefix_requires_marker (some "abc") ["x::y"] []).2.1
    "abc" rfl (Or.inr (by decide))

end GCloudStorage
